import Mathlib

/-!
Shallow embedding of `pkg/identity/cache/allocator.go` (the identity
allocation orchestrator) and proofs about its allocate/release,
reference-counting, keep-alive, and lifecycle logic.

Modelling conventions:
* Go errors are modelled by their message strings (`Err`).
* The package-level mutable variables of allocator.go become the fields of
  `AllocState`; each operation is a function from state to result and new
  state.
* External collaborators (the reserved-identity table, the local identity
  cache, the kvstore-backed `allocator.Allocator`, `RequiresGlobalIdentity`)
  live outside this file's source and are consumed only at their interface,
  so they are abstract function parameters collected in `Env`.
* A Go channel `select` that can wait forever is modelled by `Outcome`:
  either the operation returns a value or it blocks.
-/

namespace Cilium

/-- Numeric identity value (`idpool.ID` / `identity.NumericIdentity` in the
source; both are modelled as `Nat`, with the `Uint32` conversion at
allocator.go line 291 the identity on the values in range). -/
abbrev ID := Nat

/-- Go errors, modelled by their message strings. -/
abbrev Err := String

/-- A label set (`labels.Labels`): a list of (source, key=value) pairs.
Its internal structure is irrelevant to the orchestrator, which only passes
label sets to its collaborators. -/
abbrev Labels := List (String × String)

/-- `identity.Identity`: a numeric identity paired with the label set it
represents. -/
structure Identity where
  id : ID
  lbls : Labels
deriving DecidableEq

/-- `context.Context`, reduced to what allocator.go observes: whether
`ctx.Done()` has fired and the message of `ctx.Err()`. -/
structure Ctx where
  done : Bool
  err : String
deriving DecidableEq

deriving instance DecidableEq for Except

/-- Result of an operation that may wait forever on a channel `select`:
either it returns a value or it blocks. -/
inductive Outcome (α : Type) where
  | ret (a : α)
  | blocked
deriving DecidableEq

/-- External collaborators of allocator.go, consumed at their interfaces
(spec section 6): the reserved/well-known identity table
(`LookupReservedIdentityByLabels`), `identity.RequiresGlobalIdentity`,
`Identity.IsReserved`, the local identity cache (`lookupOrCreate`,
`release`), and the kvstore-backed allocator (`Allocate`, `Release`,
`WaitForInitialSync`). The orchestrator only calls them, so they are
abstract functions here. -/
structure Env where
  lookupReservedIdentityByLabels : Labels → Option Identity
  requiresGlobalIdentity : Labels → Bool
  isReserved : Identity → Bool
  lookupOrCreate : Labels → Except Err (Identity × Bool)
  localRelease : Identity → Bool
  kvAllocate : Ctx → Labels → Except Err (ID × Bool)
  kvRelease : Ctx → Labels → Except Err Bool
  waitForInitialSync : Ctx → Option Err

/-- The package-level mutable state of allocator.go (lines 56-82).
`identityAllocator` is whether the `IdentityAllocator` pointer is non-nil;
`initializedClosed` is whether the `identityAllocatorInitialized` channel
has been closed; `localIdentities` is whether the local identity cache
pointer is non-nil; `idPoolRefCount` is the Go map (absent keys read as 0);
`controllers` is the list of identities `d` for which a controller named
"sync-identity (d)" is registered in `identityControllerManager`. -/
structure AllocState where
  identityAllocator : Bool
  initializedClosed : Bool
  localIdentities : Bool
  idPoolRefCount : ID → Nat
  controllers : List ID

/-- Modelled from the spec: `controller.Manager.UpdateController` (the
Background Task Manager's `updateOrCreateTask`, spec section 6) is keyed by
the task name, creating the task if absent and updating it in place
otherwise; restricted here to the "sync-identity (d)" names, it adds `id`
to the registry if not present. The controller package is part of this
repository but not under the sources in scope. -/
def updateController (id : ID) (cs : List ID) : List ID :=
  if id ∈ cs then cs else id :: cs

/-- Modelled from the spec: `controller.Manager.RemoveControllerAndWait`
(the Background Task Manager's `removeTaskAndWait`, spec section 6) removes
the named task from the registry. -/
def removeControllerAndWait (id : ID) (cs : List ID) : List ID :=
  cs.filter (fun c => c ≠ id)

/-- The error message built at allocator.go line 170. -/
def cancelledMsg (ctx : Ctx) : Err :=
  "initial identity sync was cancelled: " ++ ctx.err

/-- `WaitForInitialIdentities` (allocator.go lines 166-174): `select` on the
initialized channel and `ctx.Done()`; on the cancellation branch return the
wrapped context error, otherwise fall through to the backend's
`WaitForInitialSync`. `sel` resolves the `select` nondeterminism when both
channels are ready: `true` picks the initialized branch. -/
def WaitForInitialIdentities (env : Env) (sel : Bool) (st : AllocState) (ctx : Ctx) :
    Outcome (Option Err) :=
  if st.initializedClosed && ctx.done then
    if sel then Outcome.ret (env.waitForInitialSync ctx)
    else Outcome.ret (some (cancelledMsg ctx))
  else if st.initializedClosed then Outcome.ret (env.waitForInitialSync ctx)
  else if ctx.done then Outcome.ret (some (cancelledMsg ctx))
  else Outcome.blocked

/-- The `identityRefCountMutex` critical section of `AllocateIdentity`
(allocator.go lines 225-252): if the reference count is 0 (or absent), arm
the "sync-identity" keep-alive controller, then increment the count. -/
def allocCriticalSection (id : ID) (st : AllocState) : AllocState :=
  let refCountNew := st.idPoolRefCount id == 0
  let st1 :=
    if refCountNew then { st with controllers := updateController id st.controllers }
    else st
  { st1 with idPoolRefCount :=
      fun j => if j = id then st1.idPoolRefCount j + 1 else st1.idPoolRefCount j }

/-- The `identityRefCountMutex` critical section of `Release`
(allocator.go lines 292-302): if the count is positive, remove the
keep-alive controller when the count is exactly 1, then decrement; if the
count is already 0 the section is a no-op. -/
def releaseCriticalSection (idty : ID) (st : AllocState) : AllocState :=
  let refCount := st.idPoolRefCount idty
  if refCount > 0 then
    let lastRef := refCount == 1
    let st1 :=
      if lastRef then { st with controllers := removeControllerAndWait idty st.controllers }
      else st
    { st1 with idPoolRefCount :=
        fun j => if j = idty then st1.idPoolRefCount j - 1 else st1.idPoolRefCount j }
  else st

/-- `AllocateIdentity` (allocator.go lines 192-261). The reserved fast path
comes first, then the local-cache path guarded by `localIdentities != nil`,
then the global path. Note that the source discards the result of
`WaitForInitialIdentities` at line 214. -/
def AllocateIdentity (env : Env) (sel : Bool) (st : AllocState) (ctx : Ctx) (lbls : Labels) :
    Outcome (Except Err (Identity × Bool)) × AllocState :=
  match env.lookupReservedIdentityByLabels lbls with
  | some reservedIdentity => (Outcome.ret (Except.ok (reservedIdentity, false)), st)
  | none =>
    if !(env.requiresGlobalIdentity lbls) && st.localIdentities then
      (Outcome.ret (env.lookupOrCreate lbls), st)
    else
      match WaitForInitialIdentities env sel st ctx with
      | Outcome.blocked => (Outcome.blocked, st)
      | Outcome.ret _ =>
        if !st.identityAllocator then
          (Outcome.ret (Except.error "allocator not initialized"), st)
        else
          match env.kvAllocate ctx lbls with
          | Except.error e => (Outcome.ret (Except.error e), st)
          | Except.ok (id, isNew) =>
            (Outcome.ret (Except.ok ({ id := id, lbls := lbls }, isNew)),
             allocCriticalSection id st)

/-- `Release` (allocator.go lines 266-305). Reserved identities are a no-op
returning `(false, nil)`; the local-cache path is guarded by
`localIdentities != nil`; the global path calls the backend release and
then runs the reference-count critical section. The source discards the
result of `WaitForInitialIdentities` at line 279. -/
def Release (env : Env) (sel : Bool) (st : AllocState) (ctx : Ctx) (id : Identity) :
    Outcome (Except Err Bool) × AllocState :=
  if env.isReserved id then (Outcome.ret (Except.ok false), st)
  else if !(env.requiresGlobalIdentity id.lbls) && st.localIdentities then
    (Outcome.ret (Except.ok (env.localRelease id)), st)
  else
    match WaitForInitialIdentities env sel st ctx with
    | Outcome.blocked => (Outcome.blocked, st)
    | Outcome.ret _ =>
      if !st.identityAllocator then
        (Outcome.ret (Except.error "allocator not initialized"), st)
      else
        match env.kvRelease ctx id.lbls with
        | Except.error e => (Outcome.ret (Except.error e), st)
        | Except.ok lastUse =>
          (Outcome.ret (Except.ok lastUse), releaseCriticalSection id.id st)

/-- Result of `ReleaseSlice`: the aggregate error variable `err`, plus
instrumentation recording which identities were passed to `Release`
(`attempted`) and which failures were logged with their errors (`logged`),
and the final state. -/
structure SliceResult where
  outcome : Outcome Unit
  err : Option Err
  attempted : List Identity
  logged : List (Identity × Err)
  state : AllocState

/-- The loop of `ReleaseSlice` (allocator.go lines 312-324): `nil` entries
are skipped by `continue`; each non-nil identity is passed to `Release`;
a failure is logged and overwrites the aggregate `err`; the loop always
proceeds to the next element. -/
def releaseSliceLoop (env : Env) (sel : Bool) (ctx : Ctx) :
    List (Option Identity) → AllocState → Option Err → List Identity →
    List (Identity × Err) → SliceResult
  | [], st, err, att, lg =>
    { outcome := Outcome.ret (), err := err, attempted := att, logged := lg, state := st }
  | none :: rest, st, err, att, lg => releaseSliceLoop env sel ctx rest st err att lg
  | some id :: rest, st, err, att, lg =>
    match Release env sel st ctx id with
    | (Outcome.blocked, st2) =>
      { outcome := Outcome.blocked, err := err, attempted := att ++ [id], logged := lg,
        state := st2 }
    | (Outcome.ret (Except.error err2), st2) =>
      releaseSliceLoop env sel ctx rest st2 (some err2) (att ++ [id]) (lg ++ [(id, err2)])
    | (Outcome.ret (Except.ok _), st2) =>
      releaseSliceLoop env sel ctx rest st2 err (att ++ [id]) lg

/-- `ReleaseSlice` (allocator.go lines 311-325): best-effort release of a
batch, starting with a nil aggregate error. -/
def ReleaseSlice (env : Env) (sel : Bool) (st : AllocState) (ctx : Ctx)
    (identities : List (Option Identity)) : SliceResult :=
  releaseSliceLoop env sel ctx identities st none [] []

/-- The distinguishable fatal misuses of the lifecycle controller
(`log.Panic` calls at allocator.go lines 102 and 148). -/
inductive PanicMsg where
  | initInSuccession
  | closeWithoutInit
deriving DecidableEq

/-- The state produced by a successful `InitIdentityAllocator`
(allocator.go lines 128-133): fresh controller manager, empty reference
count map, non-nil allocator, closed initialized channel, non-nil local
identity cache. -/
def freshInitializedState : AllocState :=
  { identityAllocator := true, initializedClosed := true, localIdentities := true,
    idPoolRefCount := fun _ => 0, controllers := [] }

/-- The state produced by a successful `Close` (allocator.go lines
152-161): cleared reference counts, all controllers removed, allocator
pointer nil, the initialized channel replaced by a fresh (open) one, local
identity cache nil. -/
def closedState : AllocState :=
  { identityAllocator := false, initializedClosed := false, localIdentities := false,
    idPoolRefCount := fun _ => 0, controllers := [] }

/-- `InitIdentityAllocator` (allocator.go lines 97-135) as a state
transition: panics if `IdentityAllocator` is already non-nil, otherwise
rebuilds the allocator state from scratch. -/
def InitIdentityAllocator (st : AllocState) : Except PanicMsg AllocState :=
  if st.identityAllocator then Except.error PanicMsg.initInSuccession
  else Except.ok freshInitializedState

/-- `Close` (allocator.go lines 139-162) as a state transition: the
`select` skips the nil check when the initialized channel is closed;
otherwise a nil `IdentityAllocator` panics; on success all state is torn
down. -/
def Close (st : AllocState) : Except PanicMsg AllocState :=
  if st.initializedClosed then Except.ok closedState
  else if !st.identityAllocator then Except.error PanicMsg.closeWithoutInit
  else Except.ok closedState

/-- The observable steps of `InitIdentityAllocator`, in program order. -/
inductive InitStep where
  | initWellKnownIdentities
  | startWatcher
  | newAllocator
  | newControllerManager
  | newRefCountTable
  | setIdentityAllocator
  | signalInitialized
  | newLocalIdentityCache
deriving DecidableEq, BEq

/-- The sequence of steps executed by a successful `InitIdentityAllocator`
(allocator.go lines 105, 116, 118, 128, 129, 131, 132, 133): resolve the
well-known identities, start the event watcher, construct the kvstore
allocator, create the controller manager, create the empty reference-count
map, publish the allocator pointer, close the initialized channel, and
construct the local identity cache. -/
def initIdentityAllocatorTrace : List InitStep :=
  [InitStep.initWellKnownIdentities, InitStep.startWatcher, InitStep.newAllocator,
   InitStep.newControllerManager, InitStep.newRefCountTable,
   InitStep.setIdentityAllocator, InitStep.signalInitialized,
   InitStep.newLocalIdentityCache]

/-- The invariant tying the keep-alive controller registry to the
reference-count table (spec sections 3 and 5): the registry has no
duplicate entries, and a "sync-identity" controller is registered for an
identity exactly when its local reference count is positive. -/
def refInv (st : AllocState) : Prop :=
  st.controllers.Nodup ∧ ∀ i : ID, i ∈ st.controllers ↔ 0 < st.idPoolRefCount i

/-- The full result `Release` produces for one identity once the
initialized channel is closed, as a function of the lifecycle flags and the
call inputs alone; used to state the `ReleaseSlice` theorem. That the
reference counts never influence the returned value is proved in
`release_result_of_initialized`. -/
def releaseResOf (env : Env) (ia li : Bool) (ctx : Ctx) (i : Identity) :
    Except Err Bool :=
  if env.isReserved i then Except.ok false
  else if !(env.requiresGlobalIdentity i.lbls) && li then Except.ok (env.localRelease i)
  else if !ia then Except.error "allocator not initialized"
  else env.kvRelease ctx i.lbls

/-- The failures a `ReleaseSlice` over `ids` will log, in order: the non-nil
identities whose individual `Release` returns an error, paired with that
error. -/
def sliceFailures (env : Env) (ia li : Bool) (ctx : Ctx)
    (ids : List (Option Identity)) : List (Identity × Err) :=
  ids.reduceOption.filterMap fun i =>
    match releaseResOf env ia li ctx i with
    | Except.error e => some (i, e)
    | Except.ok _ => none

/-- The aggregate error after folding a list of logged failures over an
initial aggregate: the Go loop overwrites `err` on each failure, so the
last failure wins and the initial value survives only if no failure
occurs. -/
def lastErr (l : List (Identity × Err)) (e : Option Err) : Option Err :=
  match l.getLast? with
  | some p => some p.2
  | none => e

/-- Concrete label sets used by the witnesses. -/
def lblsReserved : Labels := [("reserved", "host")]

def lblsLocal : Labels := [("cidr", "10.0.0.0/8")]

def lblsGlobal : Labels := [("k8s", "app=foo")]

def lblsGlobal2 : Labels := [("k8s", "app=bar")]

def lblsBad : Labels := [("k8s", "app=bad")]

/-- The fixed reserved identity used by the witness environment. -/
def reservedIdentity0 : Identity := { id := 1, lbls := lblsReserved }

def idGlobal : Identity := { id := 100, lbls := lblsGlobal }

def idGlobal2 : Identity := { id := 101, lbls := lblsGlobal2 }

def idBad : Identity := { id := 100, lbls := lblsBad }

/-- A concrete executable environment for the witnesses: one reserved label
set, one local-scope label set, a backend that fails exactly on `lblsBad`
and otherwise allocates identity 100. -/
def env0 : Env :=
  { lookupReservedIdentityByLabels :=
      fun lbls => if lbls = lblsReserved then some reservedIdentity0 else none,
    requiresGlobalIdentity := fun lbls => if lbls = lblsLocal then false else true,
    isReserved := fun i => i.id == 1,
    lookupOrCreate := fun lbls => Except.ok ({ id := 42, lbls := lbls }, true),
    localRelease := fun _ => true,
    kvAllocate := fun _ lbls =>
      if lbls = lblsBad then Except.error "kvstore unavailable" else Except.ok (100, true),
    kvRelease := fun _ lbls =>
      if lbls = lblsBad then Except.error "kvstore unavailable" else Except.ok true,
    waitForInitialSync := fun ctx => if ctx.done then some "sync cancelled" else none }

/-- A context whose `Done()` channel has not fired. -/
def ctx0 : Ctx := { done := false, err := "" }

/-- A context whose `Done()` channel has fired with `context.Canceled`. -/
def ctxCancelled : Ctx := { done := true, err := "context canceled" }

/-- The allocate critical section increments the count of the allocated
identity by exactly one. -/
theorem allocCS_count (id : ID) (st : AllocState) :
    (allocCriticalSection id st).idPoolRefCount id = st.idPoolRefCount id + 1 := by
  unfold allocCriticalSection
  by_cases h0 : st.idPoolRefCount id = 0 <;> simp [h0]

/-- The allocate critical section leaves every other count unchanged. -/
theorem allocCS_count_ne (id j : ID) (st : AllocState) (hj : j ≠ id) :
    (allocCriticalSection id st).idPoolRefCount j = st.idPoolRefCount j := by
  unfold allocCriticalSection
  by_cases h0 : st.idPoolRefCount id = 0 <;> simp [h0, hj]

/-- The controllers after the allocate critical section: armed on the
zero-to-one transition, untouched otherwise. -/
theorem allocCS_controllers (id : ID) (st : AllocState) :
    (allocCriticalSection id st).controllers =
      if st.idPoolRefCount id = 0 then updateController id st.controllers
      else st.controllers := by
  unfold allocCriticalSection
  by_cases h0 : st.idPoolRefCount id = 0 <;> simp [h0]

/-- The release critical section is the identity on a zero count. -/
theorem releaseCS_noop (idty : ID) (st : AllocState)
    (h0 : st.idPoolRefCount idty = 0) :
    releaseCriticalSection idty st = st := by
  unfold releaseCriticalSection
  simp [h0]

/-- The controllers after the release critical section: removed exactly
when the count was 1 before the decrement, untouched otherwise. -/
theorem releaseCS_controllers (idty : ID) (st : AllocState) :
    (releaseCriticalSection idty st).controllers =
      if st.idPoolRefCount idty = 1 then removeControllerAndWait idty st.controllers
      else st.controllers := by
  unfold releaseCriticalSection
  rcases hn : st.idPoolRefCount idty with _ | n
  · simp
  · rcases n with _ | m <;> simp

/-- The count after the release critical section at the released identity:
decremented when positive. -/
theorem releaseCS_count (idty : ID) (st : AllocState)
    (hpos : 0 < st.idPoolRefCount idty) :
    (releaseCriticalSection idty st).idPoolRefCount idty =
      st.idPoolRefCount idty - 1 := by
  unfold releaseCriticalSection
  by_cases h1 : st.idPoolRefCount idty = 1
  · simp [h1]
  · simp [hpos, h1]

/-- The release critical section leaves every other count unchanged. -/
theorem releaseCS_count_ne (idty j : ID) (st : AllocState) (hj : j ≠ idty) :
    (releaseCriticalSection idty st).idPoolRefCount j = st.idPoolRefCount j := by
  unfold releaseCriticalSection
  by_cases hpos : st.idPoolRefCount idty > 0
  · by_cases h1 : st.idPoolRefCount idty = 1 <;> simp [hpos, h1, hj]
  · simp [hpos]

/-- Once the initialized channel is closed, the readiness wait always
returns (it never blocks), whatever the context and select choice. -/
theorem wait_returns_of_initialized (env : Env) (sel : Bool) (st : AllocState)
    (ctx : Ctx) (h : st.initializedClosed = true) :
    ∃ r, WaitForInitialIdentities env sel st ctx = Outcome.ret r := by
  unfold WaitForInitialIdentities
  rw [h]
  cases hd : ctx.done <;> cases sel <;> simp

/-- C4: for every global identity whose local reference count is already
zero, a further `Release` leaves the entire allocator state unchanged: no
decrement of the (unsigned) count, no keep-alive controller removal, a
safe no-op on the reference-count table. -/
theorem release_zero_refcount_noop (env : Env) (sel : Bool) (st : AllocState)
    (ctx : Ctx) (id : Identity)
    (hzero : st.idPoolRefCount id.id = 0)
    (hresv : env.isReserved id = false)
    (hglob : env.requiresGlobalIdentity id.lbls = true) :
    (Release env sel st ctx id).2 = st := by
  have hcs : releaseCriticalSection id.id st = st := releaseCS_noop id.id st hzero
  unfold Release
  rcases hw : WaitForInitialIdentities env sel st ctx with r | _
  · cases hia : st.identityAllocator
    · simp [hresv, hglob, hw, hia]
    · rcases hk : env.kvRelease ctx id.lbls with e | lu <;>
        simp [hresv, hglob, hw, hia, hk, hcs]
  · simp [hresv, hglob, hw]

/-- Witness for C4: releasing a global identity with a zero count in the
freshly initialized state leaves the state untouched. -/
theorem release_zero_refcount_noop_witness :
    freshInitializedState.idPoolRefCount idGlobal.id = 0 ∧
    env0.isReserved idGlobal = false ∧
    env0.requiresGlobalIdentity idGlobal.lbls = true ∧
    (Release env0 true freshInitializedState ctx0 idGlobal).2 = freshInitializedState :=
  ⟨rfl, rfl, rfl,
    release_zero_refcount_noop env0 true freshInitializedState ctx0 idGlobal rfl rfl rfl⟩

/-- C6: when the distributed backend's allocate or release returns an
error on the global path, `AllocateIdentity` and `Release` return exactly
that error and leave the allocator state unchanged — no reference-count
and no keep-alive mutation. -/
theorem backend_error_leaves_state_unchanged (env : Env) (sel : Bool)
    (st : AllocState) (ctx : Ctx) (lbls : Labels) (id : Identity) (e1 e2 : Err)
    (hres : env.lookupReservedIdentityByLabels lbls = none)
    (hglob1 : env.requiresGlobalIdentity lbls = true)
    (hresv : env.isReserved id = false)
    (hglob2 : env.requiresGlobalIdentity id.lbls = true)
    (hinit : st.initializedClosed = true)
    (halloc : st.identityAllocator = true)
    (hkva : env.kvAllocate ctx lbls = Except.error e1)
    (hkvr : env.kvRelease ctx id.lbls = Except.error e2) :
    AllocateIdentity env sel st ctx lbls = (Outcome.ret (Except.error e1), st) ∧
    Release env sel st ctx id = (Outcome.ret (Except.error e2), st) := by
  obtain ⟨r, hw⟩ := wait_returns_of_initialized env sel st ctx hinit
  constructor
  · simp [AllocateIdentity, hres, hglob1, hw, halloc, hkva]
  · simp [Release, hresv, hglob2, hw, halloc, hkvr]

/-- Witness for C6: the backend fails on `lblsBad`, and both operations in
the initialized state return that error with the state unchanged. -/
theorem backend_error_leaves_state_unchanged_witness :
    env0.kvAllocate ctx0 lblsBad = Except.error "kvstore unavailable" ∧
    env0.kvRelease ctx0 idBad.lbls = Except.error "kvstore unavailable" ∧
    (AllocateIdentity env0 true freshInitializedState ctx0 lblsBad =
        (Outcome.ret (Except.error "kvstore unavailable"), freshInitializedState) ∧
      Release env0 true freshInitializedState ctx0 idBad =
        (Outcome.ret (Except.error "kvstore unavailable"), freshInitializedState)) :=
  ⟨rfl, rfl,
    backend_error_leaves_state_unchanged env0 true freshInitializedState ctx0 lblsBad
      idBad "kvstore unavailable" "kvstore unavailable" rfl rfl rfl rfl rfl rfl rfl rfl⟩

/-- Every `AllocateIdentity` call either leaves the state unchanged or
changes it by exactly one run of the allocate critical section. -/
theorem allocate_state_cases (st : AllocState) :
    ∀ (env : Env) (sel : Bool) (ctx : Ctx) (lbls : Labels),
      (AllocateIdentity env sel st ctx lbls).2 = st ∨
      ∃ kid, (AllocateIdentity env sel st ctx lbls).2 = allocCriticalSection kid st := by
  intro env sel ctx lbls
  unfold AllocateIdentity
  rcases hres : env.lookupReservedIdentityByLabels lbls with _ | r
  · by_cases hl : (!(env.requiresGlobalIdentity lbls) && st.localIdentities) = true
    · left
      simp [hres, hl]
    · rcases hw : WaitForInitialIdentities env sel st ctx with r2 | _
      · cases hia : st.identityAllocator
        · left
          simp [hres, hl, hw, hia]
        · rcases hka : env.kvAllocate ctx lbls with e | p
          · left
            simp [hres, hl, hw, hia, hka]
          · obtain ⟨kid, isNew⟩ := p
            right
            exact ⟨kid, by simp [hres, hl, hw, hia, hka]⟩
      · left
        simp [hres, hl, hw]
  · left
    simp [hres]

/-- Every `Release` call either leaves the state unchanged or changes it
by exactly one run of the release critical section for the released
identity. -/
theorem release_state_cases (st : AllocState) :
    ∀ (env : Env) (sel : Bool) (ctx : Ctx) (idy : Identity),
      (Release env sel st ctx idy).2 = st ∨
      (Release env sel st ctx idy).2 = releaseCriticalSection idy.id st := by
  intro env sel ctx idy
  unfold Release
  by_cases hr : env.isReserved idy = true
  · left
    simp [hr]
  · by_cases hl : (!(env.requiresGlobalIdentity idy.lbls) && st.localIdentities) = true
    · left
      simp [hr, hl]
    · rcases hw : WaitForInitialIdentities env sel st ctx with r2 | _
      · cases hia : st.identityAllocator
        · left
          simp [hr, hl, hw, hia]
        · rcases hk : env.kvRelease ctx idy.lbls with e | lu
          · left
            simp [hr, hl, hw, hia, hk]
          · right
            simp [hr, hl, hw, hia, hk]
      · left
        simp [hr, hl, hw]

/-- C3: the reference-count/keep-alive protocol. Given the invariant that
the controller registry is duplicate-free and a keep-alive controller is
registered exactly for identities with a positive count, both critical
sections preserve it; the allocate section arms the task exactly on the
zero-to-one transition (and otherwise leaves the registry untouched) while
incrementing the count; the release section removes the task exactly when
the count is 1 before the decrement (and otherwise leaves the registry
untouched); at most one task exists per identity; and every
`AllocateIdentity` / `Release` call changes the state only by running the
corresponding critical section (one atomic step under
`identityRefCountMutex`), if at all. -/
theorem keepalive_refcount_atomicity (id : ID) (st : AllocState) (h : refInv st) :
    refInv (allocCriticalSection id st) ∧
    refInv (releaseCriticalSection id st) ∧
    (st.idPoolRefCount id = 0 →
      (allocCriticalSection id st).controllers = id :: st.controllers) ∧
    (0 < st.idPoolRefCount id →
      (allocCriticalSection id st).controllers = st.controllers) ∧
    (allocCriticalSection id st).idPoolRefCount id = st.idPoolRefCount id + 1 ∧
    id ∈ (allocCriticalSection id st).controllers ∧
    (st.idPoolRefCount id = 1 →
      id ∉ (releaseCriticalSection id st).controllers ∧
      (releaseCriticalSection id st).idPoolRefCount id = 0) ∧
    (st.idPoolRefCount id ≠ 1 →
      (releaseCriticalSection id st).controllers = st.controllers) ∧
    (allocCriticalSection id st).controllers.count id ≤ 1 ∧
    (releaseCriticalSection id st).controllers.count id ≤ 1 ∧
    (∀ (env : Env) (sel : Bool) (ctx : Ctx) (lbls : Labels),
      (AllocateIdentity env sel st ctx lbls).2 = st ∨
      ∃ kid, (AllocateIdentity env sel st ctx lbls).2 = allocCriticalSection kid st) ∧
    (∀ (env : Env) (sel : Bool) (ctx : Ctx) (idy : Identity),
      (Release env sel st ctx idy).2 = st ∨
      (Release env sel st ctx idy).2 = releaseCriticalSection idy.id st) := by
  obtain ⟨hnd, hmem⟩ := h
  have hArm0 : st.idPoolRefCount id = 0 →
      (allocCriticalSection id st).controllers = id :: st.controllers := by
    intro h0
    have hnm : id ∉ st.controllers := fun hc => by
      have hp := (hmem id).mp hc
      rw [h0] at hp
      exact absurd hp (lt_irrefl 0)
    rw [allocCS_controllers, if_pos h0]
    simp [updateController, hnm]
  have hArmPos : 0 < st.idPoolRefCount id →
      (allocCriticalSection id st).controllers = st.controllers := by
    intro hpos
    rw [allocCS_controllers, if_neg (Nat.pos_iff_ne_zero.mp hpos)]
  have hA : refInv (allocCriticalSection id st) := by
    by_cases h0 : st.idPoolRefCount id = 0
    · have hnm : id ∉ st.controllers := fun hc => by
        have hp := (hmem id).mp hc
        rw [h0] at hp
        exact absurd hp (lt_irrefl 0)
      constructor
      · rw [hArm0 h0]
        exact List.nodup_cons.mpr ⟨hnm, hnd⟩
      · intro i
        by_cases hi : i = id
        · rw [hi]
          rw [hArm0 h0, allocCS_count]
          simp
        · rw [hArm0 h0, allocCS_count_ne id i st hi]
          simp only [List.mem_cons]
          constructor
          · rintro (rfl | hin)
            · exact absurd rfl hi
            · exact (hmem i).mp hin
          · intro hp
            exact Or.inr ((hmem i).mpr hp)
    · have hpos : 0 < st.idPoolRefCount id := Nat.pos_of_ne_zero h0
      constructor
      · rw [hArmPos hpos]
        exact hnd
      · intro i
        by_cases hi : i = id
        · rw [hi]
          rw [hArmPos hpos, allocCS_count]
          constructor
          · intro _
            exact Nat.succ_pos _
          · intro _
            exact (hmem id).mpr hpos
        · rw [hArmPos hpos, allocCS_count_ne id i st hi]
          exact hmem i
  have hB : refInv (releaseCriticalSection id st) := by
    by_cases h0 : st.idPoolRefCount id = 0
    · rw [releaseCS_noop id st h0]
      exact ⟨hnd, hmem⟩
    · have hpos : 0 < st.idPoolRefCount id := Nat.pos_of_ne_zero h0
      by_cases h1 : st.idPoolRefCount id = 1
      · have hctrl : (releaseCriticalSection id st).controllers =
            removeControllerAndWait id st.controllers := by
          rw [releaseCS_controllers, if_pos h1]
        constructor
        · rw [hctrl]
          exact hnd.filter _
        · intro i
          by_cases hi : i = id
          · rw [hi]
            rw [hctrl, releaseCS_count id st hpos, h1]
            simp [removeControllerAndWait]
          · rw [hctrl, releaseCS_count_ne id i st hi]
            simp only [removeControllerAndWait, List.mem_filter, decide_eq_true_eq]
            constructor
            · rintro ⟨hin, _⟩
              exact (hmem i).mp hin
            · intro hp
              exact ⟨(hmem i).mpr hp, hi⟩
      · have hctrl : (releaseCriticalSection id st).controllers = st.controllers := by
          rw [releaseCS_controllers, if_neg h1]
        constructor
        · rw [hctrl]
          exact hnd
        · intro i
          by_cases hi : i = id
          · rw [hi]
            rw [hctrl, releaseCS_count id st hpos]
            constructor
            · intro _
              omega
            · intro _
              exact (hmem id).mpr hpos
          · rw [hctrl, releaseCS_count_ne id i st hi]
            exact hmem i
  have hMemA : id ∈ (allocCriticalSection id st).controllers := by
    by_cases h0 : st.idPoolRefCount id = 0
    · rw [hArm0 h0]
      exact List.mem_cons_self id _
    · rw [allocCS_controllers, if_neg h0]
      exact (hmem id).mpr (Nat.pos_of_ne_zero h0)
  have hRel1 : st.idPoolRefCount id = 1 →
      id ∉ (releaseCriticalSection id st).controllers ∧
      (releaseCriticalSection id st).idPoolRefCount id = 0 := by
    intro h1
    have hpos : 0 < st.idPoolRefCount id := by
      rw [h1]
      exact Nat.one_pos
    constructor
    · rw [releaseCS_controllers, if_pos h1]
      simp [removeControllerAndWait]
    · rw [releaseCS_count id st hpos, h1]
  have hRelNe : st.idPoolRefCount id ≠ 1 →
      (releaseCriticalSection id st).controllers = st.controllers := by
    intro h1
    rw [releaseCS_controllers, if_neg h1]
  exact ⟨hA, hB, hArm0, hArmPos, allocCS_count id st, hMemA, hRel1, hRelNe,
    List.nodup_iff_count_le_one.mp hA.1 id,
    List.nodup_iff_count_le_one.mp hB.1 id, allocate_state_cases st, release_state_cases st⟩

/-- Witness for C3: the invariant holds in the freshly initialized state
(empty registry, all counts zero), and the theorem instantiates there for
identity 100. -/
theorem keepalive_refcount_atomicity_witness :
    refInv freshInitializedState ∧
    (refInv (allocCriticalSection 100 freshInitializedState) ∧
      refInv (releaseCriticalSection 100 freshInitializedState) ∧
      (freshInitializedState.idPoolRefCount 100 = 0 →
        (allocCriticalSection 100 freshInitializedState).controllers =
          100 :: freshInitializedState.controllers) ∧
      (0 < freshInitializedState.idPoolRefCount 100 →
        (allocCriticalSection 100 freshInitializedState).controllers =
          freshInitializedState.controllers) ∧
      (allocCriticalSection 100 freshInitializedState).idPoolRefCount 100 =
        freshInitializedState.idPoolRefCount 100 + 1 ∧
      100 ∈ (allocCriticalSection 100 freshInitializedState).controllers ∧
      (freshInitializedState.idPoolRefCount 100 = 1 →
        100 ∉ (releaseCriticalSection 100 freshInitializedState).controllers ∧
        (releaseCriticalSection 100 freshInitializedState).idPoolRefCount 100 = 0) ∧
      (freshInitializedState.idPoolRefCount 100 ≠ 1 →
        (releaseCriticalSection 100 freshInitializedState).controllers =
          freshInitializedState.controllers) ∧
      (allocCriticalSection 100 freshInitializedState).controllers.count 100 ≤ 1 ∧
      (releaseCriticalSection 100 freshInitializedState).controllers.count 100 ≤ 1 ∧
      (∀ (env : Env) (sel : Bool) (ctx : Ctx) (lbls : Labels),
        (AllocateIdentity env sel freshInitializedState ctx lbls).2 =
          freshInitializedState ∨
        ∃ kid, (AllocateIdentity env sel freshInitializedState ctx lbls).2 =
          allocCriticalSection kid freshInitializedState) ∧
      (∀ (env : Env) (sel : Bool) (ctx : Ctx) (idy : Identity),
        (Release env sel freshInitializedState ctx idy).2 = freshInitializedState ∨
        (Release env sel freshInitializedState ctx idy).2 =
          releaseCriticalSection idy.id freshInitializedState)) := by
  have hinv : refInv freshInitializedState := by
    constructor
    · exact List.nodup_nil
    · intro i
      simp [freshInitializedState]
  exact ⟨hinv, keepalive_refcount_atomicity 100 freshInitializedState hinv⟩

/-- C5: for every label set matching a reserved/well-known entry,
`AllocateIdentity` returns that fixed identity with `isNew = false` and no
error, leaving the state untouched, for every environment, context, and
state — in particular whether or not the allocator has been initialized,
and independently of the backend and of reference counting. -/
theorem allocate_reserved_fast_path (env : Env) (sel : Bool) (st : AllocState)
    (ctx : Ctx) (lbls : Labels) (r : Identity)
    (hres : env.lookupReservedIdentityByLabels lbls = some r) :
    AllocateIdentity env sel st ctx lbls = (Outcome.ret (Except.ok (r, false)), st) := by
  simp [AllocateIdentity, hres]

/-- Witness for C5: the reserved label set resolves through the fast path
even in the torn-down (uninitialized) state with a cancelled context. -/
theorem allocate_reserved_fast_path_witness :
    env0.lookupReservedIdentityByLabels lblsReserved = some reservedIdentity0 ∧
    AllocateIdentity env0 true closedState ctxCancelled lblsReserved =
      (Outcome.ret (Except.ok (reservedIdentity0, false)), closedState) :=
  ⟨rfl, allocate_reserved_fast_path env0 true closedState ctxCancelled lblsReserved
    reservedIdentity0 rfl⟩

/-- C7: the steps of `InitIdentityAllocator` occur in the order: resolve
the well-known identity table, start the remote-event watcher, construct
the kvstore backend handle, create the controller manager, create the
empty reference-count table, publish the allocator pointer, signal ready,
and only then construct the local identity cache; in particular the
watcher starts strictly before the backend handle is created, and every
step occurs in the trace. -/
theorem init_step_ordering :
    initIdentityAllocatorTrace.indexOf InitStep.initWellKnownIdentities <
      initIdentityAllocatorTrace.indexOf InitStep.startWatcher ∧
    initIdentityAllocatorTrace.indexOf InitStep.startWatcher <
      initIdentityAllocatorTrace.indexOf InitStep.newAllocator ∧
    initIdentityAllocatorTrace.indexOf InitStep.newAllocator <
      initIdentityAllocatorTrace.indexOf InitStep.newControllerManager ∧
    initIdentityAllocatorTrace.indexOf InitStep.newControllerManager <
      initIdentityAllocatorTrace.indexOf InitStep.newRefCountTable ∧
    initIdentityAllocatorTrace.indexOf InitStep.newRefCountTable <
      initIdentityAllocatorTrace.indexOf InitStep.setIdentityAllocator ∧
    initIdentityAllocatorTrace.indexOf InitStep.setIdentityAllocator <
      initIdentityAllocatorTrace.indexOf InitStep.signalInitialized ∧
    initIdentityAllocatorTrace.indexOf InitStep.signalInitialized <
      initIdentityAllocatorTrace.indexOf InitStep.newLocalIdentityCache ∧
    initIdentityAllocatorTrace.indexOf InitStep.newLocalIdentityCache <
      initIdentityAllocatorTrace.length := by
  decide

/-- C8: calling `InitIdentityAllocator` while an allocator instance is
live panics, and calling `Close` when no live instance exists (allocator
pointer nil and initialized channel not closed) panics. -/
theorem init_close_misuse_panics (st st2 : AllocState)
    (hlive : st.identityAllocator = true)
    (hdead : st2.identityAllocator = false)
    (hch : st2.initializedClosed = false) :
    InitIdentityAllocator st = Except.error PanicMsg.initInSuccession ∧
    Close st2 = Except.error PanicMsg.closeWithoutInit := by
  constructor
  · simp [InitIdentityAllocator, hlive]
  · simp [Close, hdead, hch]

/-- Witness for C8: a second init after a successful init panics, and a
close in the torn-down state panics. -/
theorem init_close_misuse_panics_witness :
    freshInitializedState.identityAllocator = true ∧
    closedState.identityAllocator = false ∧
    closedState.initializedClosed = false ∧
    (InitIdentityAllocator freshInitializedState =
        Except.error PanicMsg.initInSuccession ∧
      Close closedState = Except.error PanicMsg.closeWithoutInit) :=
  ⟨rfl, rfl, rfl, init_close_misuse_panics freshInitializedState closedState rfl rfl rfl⟩

/-- C2 (amended): for every label set that is neither reserved nor
requires a global identity, `AllocateIdentity` delegates to the local
identity cache's `lookupOrCreate` and returns its result unchanged,
provided the local identity cache is non-nil (the allocator has been
initialized). -/
theorem allocate_local_scope_delegates_when_cache_present (env : Env) (sel : Bool)
    (st : AllocState) (ctx : Ctx) (lbls : Labels)
    (hres : env.lookupReservedIdentityByLabels lbls = none)
    (hglob : env.requiresGlobalIdentity lbls = false)
    (hloc : st.localIdentities = true) :
    AllocateIdentity env sel st ctx lbls = (Outcome.ret (env.lookupOrCreate lbls), st) := by
  simp [AllocateIdentity, hres, hglob, hloc]

/-- Witness for C2 (amended): a local-scope label set in the initialized
state is resolved by the local cache, pass-through. -/
theorem allocate_local_scope_delegates_witness :
    env0.lookupReservedIdentityByLabels lblsLocal = none ∧
    env0.requiresGlobalIdentity lblsLocal = false ∧
    freshInitializedState.localIdentities = true ∧
    AllocateIdentity env0 true freshInitializedState ctx0 lblsLocal =
      (Outcome.ret (env0.lookupOrCreate lblsLocal), freshInitializedState) :=
  ⟨rfl, rfl, rfl,
    allocate_local_scope_delegates_when_cache_present env0 true freshInitializedState
      ctx0 lblsLocal rfl rfl rfl⟩

/-- Counterexample to C2 as stated: with the allocator torn down
(`localIdentities` nil), a non-reserved label set that does not require a
global identity is NOT delegated to `lookupOrCreate`; the global-backend
path runs instead and returns the "allocator not initialized" error, which
differs from the local cache's successful result. -/
theorem allocate_local_scope_uninitialized_cex :
    env0.lookupReservedIdentityByLabels lblsLocal = none ∧
    env0.requiresGlobalIdentity lblsLocal = false ∧
    closedState.localIdentities = false ∧
    (AllocateIdentity env0 true closedState ctxCancelled lblsLocal).1 =
      Outcome.ret (Except.error "allocator not initialized") ∧
    env0.lookupOrCreate lblsLocal = Except.ok ({ id := 42, lbls := lblsLocal }, true) ∧
    (AllocateIdentity env0 true closedState ctxCancelled lblsLocal).1 ≠
      Outcome.ret (env0.lookupOrCreate lblsLocal) := by
  refine ⟨rfl, rfl, rfl, rfl, rfl, ?_⟩
  decide

/-- C1: the code discards the result of `WaitForInitialIdentities`. At a
cancelled context in the initialized state, with the select taking the
cancellation branch, the readiness wait fails with the wrapped cancellation
error, yet both `AllocateIdentity` and `Release` proceed and return the
backend's successful result with no error — the cancellation error is not
propagated to the caller. -/
theorem allocate_release_discard_wait_cancellation :
    WaitForInitialIdentities env0 false freshInitializedState ctxCancelled =
      Outcome.ret (some "initial identity sync was cancelled: context canceled") ∧
    (AllocateIdentity env0 false freshInitializedState ctxCancelled lblsGlobal).1 =
      Outcome.ret (Except.ok ({ id := 100, lbls := lblsGlobal }, true)) ∧
    (Release env0 false freshInitializedState ctxCancelled idGlobal).1 =
      Outcome.ret (Except.ok true) := by
  refine ⟨rfl, rfl, rfl⟩

/-- The release critical section only touches the reference counts and
the controller registry; the lifecycle flags are unchanged. -/
theorem releaseCS_config (idty : ID) (st : AllocState) :
    (releaseCriticalSection idty st).identityAllocator = st.identityAllocator ∧
    (releaseCriticalSection idty st).initializedClosed = st.initializedClosed ∧
    (releaseCriticalSection idty st).localIdentities = st.localIdentities := by
  unfold releaseCriticalSection
  by_cases hpos : st.idPoolRefCount idty > 0
  · by_cases h1 : st.idPoolRefCount idty = 1 <;> simp [hpos, h1]
  · simp [hpos]

/-- `Release` never changes the lifecycle flags of the state. -/
theorem release_preserves_config (env : Env) (sel : Bool) (st : AllocState)
    (ctx : Ctx) (i : Identity) :
    ((Release env sel st ctx i).2).identityAllocator = st.identityAllocator ∧
    ((Release env sel st ctx i).2).initializedClosed = st.initializedClosed ∧
    ((Release env sel st ctx i).2).localIdentities = st.localIdentities := by
  rcases release_state_cases st env sel ctx i with h | h
  · rw [h]
    exact ⟨rfl, rfl, rfl⟩
  · rw [h]
    exact releaseCS_config i.id st

/-- Once the initialized channel is closed, the value `Release` returns is
fully determined by the lifecycle flags and the call inputs — never by the
reference counts; it never blocks, and the discarded readiness-wait result
plays no part in it. -/
theorem release_result_of_initialized (env : Env) (sel : Bool) (st : AllocState)
    (ctx : Ctx) (i : Identity) (h : st.initializedClosed = true) :
    (Release env sel st ctx i).1 =
      Outcome.ret (releaseResOf env st.identityAllocator st.localIdentities ctx i) := by
  obtain ⟨r, hw⟩ := wait_returns_of_initialized env sel st ctx h
  unfold Release releaseResOf
  by_cases hr : env.isReserved i = true
  · simp [hr]
  · by_cases hl : (!(env.requiresGlobalIdentity i.lbls) && st.localIdentities) = true
    · simp [hr, hl]
    · cases hia : st.identityAllocator
      · simp [hr, hl, hw, hia]
      · rcases hk : env.kvRelease ctx i.lbls with e | lu <;> simp [hr, hl, hw, hia, hk]

/-- A nil batch entry contributes no failure. -/
theorem sliceFailures_cons_none (env : Env) (ia li : Bool) (ctx : Ctx)
    (rest : List (Option Identity)) :
    sliceFailures env ia li ctx (none :: rest) = sliceFailures env ia li ctx rest := by
  simp [sliceFailures]

/-- A failing batch entry contributes its own failure at the head. -/
theorem sliceFailures_cons_some_error (env : Env) (ia li : Bool) (ctx : Ctx)
    (i : Identity) (e : Err) (rest : List (Option Identity))
    (hres : releaseResOf env ia li ctx i = Except.error e) :
    sliceFailures env ia li ctx (some i :: rest) =
      (i, e) :: sliceFailures env ia li ctx rest := by
  simp [sliceFailures, hres]

/-- A succeeding batch entry contributes no failure. -/
theorem sliceFailures_cons_some_ok (env : Env) (ia li : Bool) (ctx : Ctx)
    (i : Identity) (b : Bool) (rest : List (Option Identity))
    (hres : releaseResOf env ia li ctx i = Except.ok b) :
    sliceFailures env ia li ctx (some i :: rest) = sliceFailures env ia li ctx rest := by
  simp [sliceFailures, hres]

/-- Folding one more failure into the aggregate: the failure at the head
becomes the fallback, so the last failure always wins. -/
theorem lastErr_cons (p : Identity × Err) (l : List (Identity × Err)) (e : Option Err) :
    lastErr (p :: l) e = lastErr l (some p.2) := by
  unfold lastErr
  rcases l with _ | ⟨q, l2⟩
  · simp
  · rw [List.getLast?_cons_cons]
    rcases hg : (q :: l2).getLast? with _ | x
    · exact absurd (List.getLast?_eq_none_iff.mp hg) (List.cons_ne_nil q l2)
    · rfl

/-- With a nil starting aggregate, the final aggregate is exactly the last
failure's error, if any. -/
theorem lastErr_none_eq_getLast (l : List (Identity × Err)) :
    lastErr l none = l.getLast?.map Prod.snd := by
  unfold lastErr
  rcases h : l.getLast? with _ | p <;> simp

/-- The `ReleaseSlice` loop, once the initialized channel is closed: it
never blocks, it passes every non-nil identity of the batch to `Release`
in order even after failures, it logs exactly the failures with their
errors, and its aggregate is the last failure's error (or the incoming
aggregate when nothing fails). -/
theorem releaseSliceLoop_spec (env : Env) (sel : Bool) (ctx : Ctx)
    (ids : List (Option Identity)) :
    ∀ (st : AllocState) (err : Option Err) (att : List Identity)
      (lg : List (Identity × Err)), st.initializedClosed = true →
      (releaseSliceLoop env sel ctx ids st err att lg).outcome = Outcome.ret () ∧
      (releaseSliceLoop env sel ctx ids st err att lg).attempted =
        att ++ ids.reduceOption ∧
      (releaseSliceLoop env sel ctx ids st err att lg).logged =
        lg ++ sliceFailures env st.identityAllocator st.localIdentities ctx ids ∧
      (releaseSliceLoop env sel ctx ids st err att lg).err =
        lastErr (sliceFailures env st.identityAllocator st.localIdentities ctx ids) err := by
  induction ids with
  | nil =>
    intro st err att lg hinit
    simp [releaseSliceLoop, sliceFailures, lastErr]
  | cons hd rest ih =>
    intro st err att lg hinit
    rcases hd with _ | i
    · have hrec := ih st err att lg hinit
      simp only [releaseSliceLoop, sliceFailures_cons_none, List.reduceOption_cons_of_none]
      exact hrec
    · rcases hR : Release env sel st ctx i with ⟨o, st2⟩
      have ho : o =
          Outcome.ret (releaseResOf env st.identityAllocator st.localIdentities ctx i) := by
        have h1 := release_result_of_initialized env sel st ctx i hinit
        rw [hR] at h1
        exact h1
      have hcfg := release_preserves_config env sel st ctx i
      rw [hR] at hcfg
      dsimp only at hcfg
      obtain ⟨hc1, hc2, hc3⟩ := hcfg
      rcases hres : releaseResOf env st.identityAllocator st.localIdentities ctx i
        with e | lu
      · have hstep : releaseSliceLoop env sel ctx (some i :: rest) st err att lg =
            releaseSliceLoop env sel ctx rest st2 (some e) (att ++ [i])
              (lg ++ [(i, e)]) := by
          simp only [releaseSliceLoop]
          rw [hR, ho, hres]
        have hrec := ih st2 (some e) (att ++ [i]) (lg ++ [(i, e)])
          (by rw [hc2]; exact hinit)
        rw [hc1, hc3] at hrec
        obtain ⟨o1, a1, l1, e1⟩ := hrec
        rw [hstep]
        refine ⟨o1, ?_, ?_, ?_⟩
        · rw [a1, List.reduceOption_cons_of_some, List.append_assoc]
          rfl
        · rw [l1, sliceFailures_cons_some_error env _ _ ctx i e rest hres,
            List.append_assoc]
          rfl
        · rw [e1, sliceFailures_cons_some_error env _ _ ctx i e rest hres]
          exact (lastErr_cons (i, e) _ err).symm
      · have hstep : releaseSliceLoop env sel ctx (some i :: rest) st err att lg =
            releaseSliceLoop env sel ctx rest st2 err (att ++ [i]) lg := by
          simp only [releaseSliceLoop]
          rw [hR, ho, hres]
        have hrec := ih st2 err (att ++ [i]) lg (by rw [hc2]; exact hinit)
        rw [hc1, hc3] at hrec
        obtain ⟨o1, a1, l1, e1⟩ := hrec
        rw [hstep]
        refine ⟨o1, ?_, ?_, ?_⟩
        · rw [a1, List.reduceOption_cons_of_some, List.append_assoc]
          rfl
        · rw [l1, sliceFailures_cons_some_ok env _ _ ctx i lu rest hres]
        · rw [e1, sliceFailures_cons_some_ok env _ _ ctx i lu rest hres]

/-- C9: `ReleaseSlice`, once the allocator is initialized: it completes,
attempts a `Release` for every non-nil element of the batch even after
individual failures, logs exactly the failing identities with their
errors, and returns the last error encountered — `none` when no element
fails. -/
theorem releaseSlice_best_effort_last_error (env : Env) (sel : Bool)
    (st : AllocState) (ctx : Ctx) (ids : List (Option Identity))
    (hinit : st.initializedClosed = true) :
    (ReleaseSlice env sel st ctx ids).outcome = Outcome.ret () ∧
    (ReleaseSlice env sel st ctx ids).attempted = ids.reduceOption ∧
    (ReleaseSlice env sel st ctx ids).logged =
      sliceFailures env st.identityAllocator st.localIdentities ctx ids ∧
    (ReleaseSlice env sel st ctx ids).err =
      (sliceFailures env st.identityAllocator st.localIdentities ctx ids).getLast?.map
        Prod.snd := by
  obtain ⟨h1, h2, h3, h4⟩ := releaseSliceLoop_spec env sel ctx ids st none [] [] hinit
  unfold ReleaseSlice
  refine ⟨h1, ?_, ?_, ?_⟩
  · rw [h2]
    simp
  · rw [h3]
    simp
  · rw [h4, lastErr_none_eq_getLast]

/-- Witness for C9: a three-element batch whose middle element fails on
the backend; all three are attempted in order, the middle failure is
logged, and the aggregate error is the middle element's error. -/
theorem releaseSlice_best_effort_witness :
    freshInitializedState.initializedClosed = true ∧
    ((ReleaseSlice env0 true freshInitializedState ctx0
        [some idGlobal, some idBad, some idGlobal2]).outcome = Outcome.ret () ∧
      (ReleaseSlice env0 true freshInitializedState ctx0
        [some idGlobal, some idBad, some idGlobal2]).attempted =
        [some idGlobal, some idBad,
          some idGlobal2].reduceOption ∧
      (ReleaseSlice env0 true freshInitializedState ctx0
        [some idGlobal, some idBad, some idGlobal2]).logged =
        sliceFailures env0 freshInitializedState.identityAllocator
          freshInitializedState.localIdentities ctx0
          [some idGlobal, some idBad, some idGlobal2] ∧
      (ReleaseSlice env0 true freshInitializedState ctx0
        [some idGlobal, some idBad, some idGlobal2]).err =
        (sliceFailures env0 freshInitializedState.identityAllocator
          freshInitializedState.localIdentities ctx0
          [some idGlobal, some idBad, some idGlobal2]).getLast?.map Prod.snd) ∧
    (ReleaseSlice env0 true freshInitializedState ctx0
      [some idGlobal, some idBad, some idGlobal2]).attempted =
      [idGlobal, idBad, idGlobal2] ∧
    (ReleaseSlice env0 true freshInitializedState ctx0
      [some idGlobal, some idBad, some idGlobal2]).err = some "kvstore unavailable" :=
  ⟨rfl,
    releaseSlice_best_effort_last_error env0 true freshInitializedState ctx0
      [some idGlobal, some idBad, some idGlobal2] rfl,
    rfl, rfl⟩

/-- Inserting a nil entry anywhere in the batch leaves the loop's whole
behaviour unchanged. -/
theorem releaseSliceLoop_skips_none (env : Env) (sel : Bool) (ctx : Ctx)
    (pre post : List (Option Identity)) :
    ∀ (st : AllocState) (err : Option Err) (att : List Identity)
      (lg : List (Identity × Err)),
      releaseSliceLoop env sel ctx (pre ++ none :: post) st err att lg =
        releaseSliceLoop env sel ctx (pre ++ post) st err att lg := by
  induction pre with
  | nil =>
    intro st err att lg
    simp [releaseSliceLoop]
  | cons hd pre2 ih =>
    intro st err att lg
    rcases hd with _ | i
    · simp only [List.cons_append, releaseSliceLoop]
      exact ih st err att lg
    · simp only [List.cons_append, releaseSliceLoop]
      rcases hR : Release env sel st ctx i with ⟨o, st2⟩
      rcases o with r | _
      · rcases r with e | b
        · exact ih st2 (some e) (att ++ [i]) (lg ++ [(i, e)])
        · exact ih st2 err (att ++ [i]) lg
      · rfl

/-- C10: a nil entry anywhere in the batch is silently skipped:
`ReleaseSlice` over the list with the nil inserted behaves exactly like
`ReleaseSlice` over the list without it — no release attempt, no log
entry, no error contribution, and the same final state. -/
theorem releaseSlice_skips_nil_entries (env : Env) (sel : Bool) (st : AllocState)
    (ctx : Ctx) (pre post : List (Option Identity)) :
    ReleaseSlice env sel st ctx (pre ++ none :: post) =
      ReleaseSlice env sel st ctx (pre ++ post) := by
  unfold ReleaseSlice
  exact releaseSliceLoop_skips_none env sel ctx pre post st none [] []

end Cilium
